import Mathlib

/-!
Shallow embedding of the realtime signaling core of the ChatApp repository
(server: `src/api/index.js`; client: `src/client/src/App.jsx`), together with
theorems settling the specification claims about it.

Server-side state (`clients` push registry, `callSignals` queue map) is pure
in-memory data; we model it with lists and functions, timestamps as `Nat`
milliseconds.  JavaScript truthiness of strings/options is modelled
explicitly; the `undefined` / `null` distinction (which the ICE-candidate
checks depend on) is modelled by the three-valued `JsOpt`.
-/

namespace ChatApp

/-! ## Server: signal-queue data model (src/api/index.js, lines 343-415) -/

/-- Event types dispatched by the REST layer (`sendEvent` call sites). -/
inductive SignalType
  | call_user
  | call_accepted
  | ice_candidate
  | end_call
  | receive_message
  | friend_request
  | friend_accepted
  | group_created
  | group_deleted
deriving DecidableEq, Repr

/-- Three-valued JavaScript optional: `undefined`, `null`, or a value.
The distinction matters because the client ICE check tests
`sdpMLineIndex === undefined` while the server normalises `undefined` to
`null`. -/
inductive JsOpt (α : Type)
  | undef
  | null
  | val (a : α)
deriving DecidableEq, Repr

/-- RTC ICE candidate shape as exchanged over the wire: the candidate string
(`""` models a missing/falsy string), `sdpMid` (`none`/`some ""` are falsy)
and `sdpMLineIndex` (tri-valued, since the code distinguishes `undefined`
from `null`). -/
structure IceCandidate where
  candidate : String
  sdpMid : Option String
  sdpMLineIndex : JsOpt Int
deriving DecidableEq, Repr

/-- JavaScript truthiness test for an optional string: `undefined`, `null`
and `""` are falsy. -/
def strFalsy (o : Option String) : Bool :=
  o.getD "" == ""

/-- Payload stored with a queued signal, mirroring the `data` objects the
endpoints build (SDP blobs are kept as opaque numeric identities). -/
inductive SignalPayload
  | callOffer (fromId : Nat) (sdp : Nat) (isVideo : Bool) (name : String)
  | answer (sdp : Nat)
  | ice (c : IceCandidate)
  | endFrom (fromId : Nat)
deriving DecidableEq, Repr

/-- One entry of a user's signal queue: the event plus the bookkeeping fields
`timestamp` (enqueue time), `read`, `readAt` that `addCallSignal` /
`getCallSignals` maintain. -/
structure SignalEntry where
  stype : SignalType
  payload : SignalPayload
  timestamp : Nat
  read : Bool
  readAt : Option Nat
deriving DecidableEq, Repr

abbrev SignalQueue := List SignalEntry

/-- `SIGNAL_TTL` from `getCallSignals`: unread signals expire 60 s after
enqueue. -/
def SIGNAL_TTL : Nat := 60000

/-- `MAX_AGE_FOR_READ`: signals older than 30 s are not marked read. -/
def MAX_AGE_FOR_READ : Nat := 30000

/-- `CLEAR_AGE`: unread signals are cleared 30 s after enqueue. -/
def CLEAR_AGE : Nat := 30000

/-- `READ_CLEAR_AGE`: read signals are cleared 10 s after `readAt`. -/
def READ_CLEAR_AGE : Nat := 10000

/-- `addCallSignal` (lines 348-360): append the signal stamped with the
current time, then keep only the last 50 entries (`slice(-50)`). -/
def addCallSignal (q : SignalQueue) (stype : SignalType) (payload : SignalPayload)
    (now : Nat) : SignalQueue :=
  let q' := q ++ [⟨stype, payload, now, false, none⟩]
  if 50 < q'.length then q'.drop (q'.length - 50) else q'

/-- The `unreadSignals.forEach` marking step of `getCallSignals`: an unread
signal younger than `MAX_AGE_FOR_READ` becomes read with `readAt = now`;
anything else is untouched. -/
def markRead (now : Nat) (e : SignalEntry) : SignalEntry :=
  if !e.read && now - e.timestamp < MAX_AGE_FOR_READ then
    { e with read := true, readAt := some now }
  else e

/-- The final clearing filter of `getCallSignals`: read signals are kept
while `now - (readAt || timestamp) < READ_CLEAR_AGE`, unread signals while
`now - timestamp < CLEAR_AGE`. -/
def keepAfterDrain (now : Nat) (e : SignalEntry) : Bool :=
  if e.read then now - (e.readAt.getD e.timestamp) < READ_CLEAR_AGE
  else now - e.timestamp < CLEAR_AGE

/-- `getCallSignals` (lines 365-415) for one user's queue: drop entries past
`SIGNAL_TTL`, snapshot the unread entries (the returned list), mark the
young unread ones read, run the clearing filter, and return the snapshot
together with the new queue. -/
def getCallSignals (q : SignalQueue) (now : Nat) : List SignalEntry × SignalQueue :=
  let q1 := q.filter (fun s => now - s.timestamp < SIGNAL_TTL)
  let unread := q1.filter (fun s => !s.read)
  let q2 := q1.map (markRead now)
  let q3 := q2.filter (keepAfterDrain now)
  (unread, q3)

/-! ## Server: push channel registry and `sendEvent` (lines 98-341)

JavaScript object keys are strings, so the several "key formats" the code
stores and deletes for one user id all collapse to the same key; the
registry is modelled as an association list from the user id to a sink
identity, and `delete clients[key]` for every key form becomes removal of
every binding of that id.  Whether a write to a sink succeeds is modelled by
the `writeOk` parameter. -/

abbrev Registry := List (Nat × Nat)

/-- Lookup of `clients[key]` over the key formats of `uid` (they coincide). -/
def lookupClient (cs : Registry) (uid : Nat) : Option Nat :=
  (cs.find? (fun p => p.1 == uid)).map Prod.snd

/-- Removal of every stored binding for `uid`
(`keysToTry.forEach(key => delete clients[key])`). -/
def removeClient (cs : Registry) (uid : Nat) : Registry :=
  cs.filter (fun p => !(p.1 == uid))

/-- `sendEvent` (lines 238-341): find a live registration for the target; if
none, return `false` leaving the registry unchanged; if the write fails,
delete every key form of the registration and return `false`; otherwise
return `true`. -/
def sendEvent (cs : Registry) (writeOk : Nat → Bool) (uid : Nat) : Bool × Registry :=
  match lookupClient cs uid with
  | none => (false, cs)
  | some sink => if writeOk sink then (true, cs) else (false, removeClient cs uid)

/-- Server state shared by the request handlers: the push registry and the
per-user signal queues (`callSignals`, keyed by the string of the user id,
modelled as a total map defaulting to `[]`). -/
structure ServerState where
  clients : Registry
  callSignals : Nat → SignalQueue

/-- Queue-map update for one user. -/
def updQ (f : Nat → SignalQueue) (uid : Nat) (q : SignalQueue) : Nat → SignalQueue :=
  fun u => if u = uid then q else f u

/-- State-level `addCallSignal(userId, signal)`. -/
def serverEnqueue (st : ServerState) (uid : Nat) (stype : SignalType)
    (payload : SignalPayload) (now : Nat) : ServerState :=
  let q := addCallSignal (st.callSignals uid) stype payload now
  { st with callSignals := updQ st.callSignals uid q }

/-! ## Server: event-dispatching endpoints (lines 556-1074)

Each definition embeds the event-dispatch effect of one handler (auth and
database access are external collaborators and are elided). -/

/-- Dispatch path of handlers that only call `sendEvent` — used by
`/api/friends/request`, `/api/friends/accept`, `/api/groups` (created),
`/api/groups/:id` (deleted): push only, queues untouched. -/
def pushOnlyDispatch (st : ServerState) (writeOk : Nat → Bool) (uid : Nat) : ServerState :=
  { st with clients := (sendEvent st.clients writeOk uid).2 }

/-- Direct-message branch of `app.post('/api/message')` (lines 827-872):
`sendEvent` to the recipient, then `sendEvent` to the sender; nothing is
enqueued into `callSignals`. -/
def apiMessageDispatch (st : ServerState) (writeOk : Nat → Bool)
    (recipientId senderId : Nat) : ServerState :=
  let cs1 := (sendEvent st.clients writeOk recipientId).2
  let cs2 := (sendEvent cs1 writeOk senderId).2
  { st with clients := cs2 }

/-- `app.post('/api/calls/initiate')` (lines 909-951): push `call_user` to
the target, then `addCallSignal` for the target. -/
def apiCallsInitiate (st : ServerState) (writeOk : Nat → Bool) (now : Nat)
    (callerId targetId sdp : Nat) (isVideo : Bool) (name : String) : ServerState :=
  let st1 : ServerState := { st with clients := (sendEvent st.clients writeOk targetId).2 }
  serverEnqueue st1 targetId .call_user (.callOffer callerId sdp isVideo name) now

/-- `app.post('/api/calls/answer')` (lines 953-982): push `call_accepted` to
the caller, then `addCallSignal` for the caller. -/
def apiCallsAnswer (st : ServerState) (writeOk : Nat → Bool) (now : Nat)
    (callerId sdp : Nat) : ServerState :=
  let st1 : ServerState := { st with clients := (sendEvent st.clients writeOk callerId).2 }
  serverEnqueue st1 callerId .call_accepted (.answer sdp) now

/-- Server-side normalisation of an ICE candidate
(`validCandidate`, lines 1004-1008): missing candidate string becomes `""`,
falsy `sdpMid` becomes `null`, `undefined` `sdpMLineIndex` becomes `null`. -/
def normalizeCandidate (c : IceCandidate) : IceCandidate :=
  { candidate := c.candidate,
    sdpMid := if strFalsy c.sdpMid then none else c.sdpMid,
    sdpMLineIndex :=
      match c.sdpMLineIndex with
      | .undef => .null
      | x => x }

/-- Whether `app.post('/api/calls/ice-candidate')` forwards the candidate:
a falsy candidate is a no-op, and a normalised candidate lacking the
candidate string, `sdpMid` and `sdpMLineIndex` all at once is skipped. -/
def serverForwardsIce (cand : JsOpt IceCandidate) : Bool :=
  match cand with
  | .undef => false
  | .null => false
  | .val c =>
    let v := normalizeCandidate c
    !(v.candidate == "" && v.sdpMid == none && v.sdpMLineIndex == JsOpt.null)

/-- `app.post('/api/calls/ice-candidate')` (lines 984-1033): when the
candidate is forwarded, push `ice_candidate` to the target and enqueue the
normalised candidate; otherwise reply success leaving the state unchanged. -/
def apiCallsIceCandidate (st : ServerState) (writeOk : Nat → Bool) (now : Nat)
    (targetId : Nat) (cand : JsOpt IceCandidate) : ServerState :=
  match cand with
  | .undef => st
  | .null => st
  | .val c =>
    let v := normalizeCandidate c
    if v.candidate == "" && v.sdpMid == none && v.sdpMLineIndex == JsOpt.null then st
    else
      let st1 : ServerState := { st with clients := (sendEvent st.clients writeOk targetId).2 }
      serverEnqueue st1 targetId .ice_candidate (.ice v) now

/-- `app.post('/api/calls/end')` (lines 1035-1074): when a target is given,
push `end_call` to it and enqueue `end_call` for it regardless of the push
outcome; with no target nothing is dispatched. -/
def apiCallsEnd (st : ServerState) (writeOk : Nat → Bool) (now : Nat)
    (senderId : Nat) (toUser : Option Nat) : ServerState :=
  match toUser with
  | none => st
  | some targetId =>
    let st1 : ServerState := { st with clients := (sendEvent st.clients writeOk targetId).2 }
    serverEnqueue st1 targetId .end_call (.endFrom senderId) now

/-- `app.get('/api/calls/poll')` (lines 1076-1111): drain the requesting
user's queue with `getCallSignals`, leaving every other user's queue
untouched. -/
def serverPoll (st : ServerState) (uid : Nat) (now : Nat) :
    List SignalEntry × ServerState :=
  let r := getCallSignals (st.callSignals uid) now
  (r.1, { st with callSignals := updQ st.callSignals uid r.2 })

/-! ## Client: transport selector (src/client/src/App.jsx, lines 626-958 and 1012-1218) -/

/-- `EventSource.readyState` values. -/
inductive SSEReadyState
  | connecting
  | opened
  | closed
deriving DecidableEq, Repr

/-- `maxReconnectAttempts` in the SSE effect (line 630). -/
def maxReconnectAttempts : Nat := 5

/-- Backoff delay computed for reconnection attempt number `attempt`
(line 687): `Math.min(1000 * Math.pow(2, reconnectAttempts), 30000)`, where
`reconnectAttempts` has already been incremented. -/
def reconnectDelay (attempt : Nat) : Nat :=
  min (1000 * 2 ^ attempt) 30000

/-- `eventSource.onerror` (lines 666-696): when the readystate is `closed`
and fewer than `maxReconnectAttempts` reconnections have been made,
increment the counter and schedule a reconnect after `reconnectDelay`;
otherwise schedule nothing.  Returns `(new attempt count, delay)` when a
reconnect is scheduled. -/
def sseOnError (readyState : SSEReadyState) (attempts : Nat) : Option (Nat × Nat) :=
  if readyState = SSEReadyState.closed then
    if attempts < maxReconnectAttempts then
      some (attempts + 1, reconnectDelay (attempts + 1))
    else none
  else none

/-- The successive backoff delays produced by repeated `closed` errors
starting from a fresh connection (attempt counter 0). -/
def reconnectDelays : List Nat :=
  (List.range maxReconnectAttempts).map (fun i => reconnectDelay (i + 1))

/-- `updatePollInterval` (lines 1188-1197): the call-signal polling interval
is 500 ms while a call is active or an incoming ring is pending, 2000 ms
otherwise. -/
def updatePollInterval (callActive receivingCall : Bool) : Nat :=
  if callActive || receivingCall then 500 else 2000

/-- Period of the `intervalCheck` timer that re-runs `updatePollInterval`
(lines 1206-1208): every 1000 ms. -/
def intervalRecheckMs : Nat := 1000

/-! ## Client: call-session state and the `call_user` handler
(App.jsx lines 804-852 via SSE, lines 1055-1104 via polling; both branches
compute the same guards and the same updates)

The SSE `onmessage` handler and `pollCalls` are created inside the
`useEffect` with dependency array `[token]` (lines 626-959 and 1012-1218),
which runs once per session.  A closure created there captures the React
state variables (`callActive`, `receivingCall`, `caller`, `localStream`,
`showCallEnding`) at their initial-render values forever; only the
`useRef` cells (`connectionRef`, `callEndedIntentionallyRef`,
`callTargetRef`, `callActiveRef`, `receivingCallRef`) and the stable
`setXxx` updaters reach live data — the code itself works around the
pitfall for the poll interval by reading `callActiveRef`/`receivingCallRef`
"to get latest values" (line 1193), but the event handlers read the plain
state variables.  Handlers are therefore modelled as functions of both the
snapshot captured by their closure and the live session state they
update. -/

/-- Live client call-session state: the React state as currently stored
(updated through the `setXxx` functions, visible to fresh closures)
together with the `useRef` cells.  `hasConnection` models
`connectionRef.current !== null`; `callerSignal` stores the incoming offer
as an opaque SDP identity. -/
structure ClientCallState where
  callActive : Bool
  receivingCall : Bool
  caller : Option Nat
  callerSignal : Option Nat
  callStatus : String
  callTarget : Option Nat
  hasConnection : Bool
  showCallEnding : Bool
  endedIntentionally : Bool
deriving DecidableEq, Repr

/-- The React state values a handler's closure captured at the render that
created it: `callActive`, `receivingCall`, `caller`, whether `localStream`
was non-null, and `showCallEnding`, all frozen from then on. -/
structure RenderSnapshot where
  callActive : Bool
  receivingCall : Bool
  caller : Option Nat
  localStream : Bool
  showCallEnding : Bool
deriving DecidableEq, Repr

/-- The snapshot captured by the mount-time `useEffect(..., [token])`
closures (the SSE handler and `pollCalls`): the initial-render values
`callActive = false`, `receivingCall = false`, `caller = null`,
`localStream = null`, `showCallEnding = false`. -/
def mountSnapshot : RenderSnapshot := ⟨false, false, none, false, false⟩

/-- Text of the `call_user` branch (identical in the SSE and `pollCalls`
handlers): `hasActiveConnection` reads the live `connectionRef` but the
closure's captured `callActive`; `isActuallyReceiving` reads the captured
`receivingCall`/`caller`/`callActive`.  When neither guard fires, the
caller identity and offer are written to the live state via the setters and
to `callTargetRef`/`receivingCallRef`. -/
def handleCallUser (snap : RenderSnapshot) (s : ClientCallState) (fromId : Nat)
    (callerName : String) (signal : Nat) : ClientCallState :=
  let hasActiveConnection := s.hasConnection && snap.callActive
  let isActuallyReceiving := snap.receivingCall && snap.caller.isSome && !snap.callActive
  if hasActiveConnection then s
  else if isActuallyReceiving then s
  else
    { s with
      callTarget := some fromId
      receivingCall := true
      caller := some fromId
      callerSignal := some signal
      callStatus := callerName ++ " is calling..." }

/-- The `call_user` handler as the program executes it: both transports'
handlers live in the mount effect, so their guards read `mountSnapshot`
(`callActive`/`receivingCall` always `false`, `caller` always `null`). -/
def runCallUser (s : ClientCallState) (fromId : Nat) (callerName : String)
    (signal : Nat) : ClientCallState :=
  handleCallUser mountSnapshot s fromId callerName signal

/-! ## Client: `ice_candidate` handler (App.jsx lines 858-875 via SSE,
lines 1110-1128 via polling; same guards) -/

/-- Outcome of handling a received `ice_candidate` event. -/
inductive IceHandling
  | applied
  | droppedInvalid
  | skipped
deriving DecidableEq, Repr

/-- Client handler for a received `ice_candidate` event: nothing happens
without a peer connection or with a falsy candidate; a candidate lacking
the candidate string, the `sdpMid` and the `sdpMLineIndex` all at once
(`!candidate && !sdpMid && sdpMLineIndex === undefined`) is dropped
silently; otherwise `addIceCandidate` is called (its errors are caught, so
the handler is total). -/
def clientHandleIceCandidate (hasConnection : Bool) (cand : JsOpt IceCandidate) :
    IceHandling :=
  if hasConnection then
    match cand with
    | .undef => .skipped
    | .null => .skipped
    | .val c =>
      if c.candidate == "" && strFalsy c.sdpMid && c.sdpMLineIndex == JsOpt.undef then
        .droppedInvalid
      else .applied
  else .skipped

/-! ## Client: call termination (App.jsx lines 516-623, 876-925, 1129-1178,
1959-2004) -/

/-- Primitive operations performed during call termination, in the order the
code performs them. -/
inductive CleanupOp
  | setEndedFlag
  | detachHandlers
  | setTerminalStatus (msg : String)
  | setShowEnding
  | stopLocalTracks
  | clearVideoElements
  | closeConnection
  | resetToIdle
  | scheduleResetToIdle (delayMs : Nat)
  | notifyRemote (target : Nat)
deriving DecidableEq, Repr

/-- Whether an operation is part of the local cleanup (everything except the
`end_call` notification to the remote party). -/
def CleanupOp.isLocalCleanup : CleanupOp → Bool
  | .notifyRemote _ => false
  | _ => true

/-- `endCallCleanup(statusMessage)` (lines 516-623) as the sequence of
operations it performs, parametrised by whether the `localStream` its
closure captured is non-null: the "ended intentionally" flag (a live ref)
is set first, then all peer-connection handlers are detached; with a
status message the terminal status and ending UI are shown, the media
tracks are stopped only when the captured `localStream` is non-null
(`if (localStream)`, lines 551-554), video elements cleared, the
connection closed and the reset to idle scheduled after a 3 s grace
period; without a message the session is reset immediately before the same
guarded track stop and close. -/
def endCallCleanup (localStream : Bool) (statusMessage : String) : List CleanupOp :=
  [.setEndedFlag, .detachHandlers] ++
    (if statusMessage ≠ "" then
      [.setTerminalStatus statusMessage, .setShowEnding] ++
        (if localStream then [CleanupOp.stopLocalTracks] else []) ++
        [.clearVideoElements, .closeConnection, .scheduleResetToIdle 3000]
    else
      [.resetToIdle] ++ (if localStream then [CleanupOp.stopLocalTracks] else []) ++
        [.clearVideoElements, .closeConnection])

/-- Text of the status choice in the `end_call` receipt handler (lines
897-904): "Call declined by caller" when still ringing, otherwise "Call
ended by other party", computed from the closure's captured
`receivingCall`/`callActive`. -/
def handleEndCallStatus (receivingCall callActive : Bool) : String :=
  if receivingCall && !callActive then "Call declined by caller"
  else "Call ended by other party"

/-- Receipt of an `end_call` event as the program executes it (SSE lines
876-925, poll lines 1129-1178): the handlers live in the mount effect, so
the role variables and `localStream` they read are the mount snapshot's
(`false`/`false`/`null`) — the status is always "Call ended by other
party" and the cleanup's `if (localStream)` track stop is skipped.  The
flag (a live ref) is still set first, the ending UI shown, and the
handlers detached before `endCallCleanup` runs. -/
def handleEndCall : List CleanupOp :=
  let msg := handleEndCallStatus mountSnapshot.receivingCall mountSnapshot.callActive
  [.setEndedFlag, .setShowEnding, .setTerminalStatus msg, .detachHandlers] ++
    endCallCleanup mountSnapshot.localStream msg

/-- Target resolution in `leaveCall` (line 1961):
`callTargetRef.current || selectedUser?._id || selectedUser?.id || caller`. -/
def leaveCallTarget (callTarget selectedUserId caller : Option Nat) : Option Nat :=
  (callTarget.orElse fun _ => selectedUserId).orElse fun _ => caller

/-- Status message chosen by `leaveCall` (lines 1993-1999). -/
def leaveCallStatus (receivingCall callActive : Bool) : String :=
  if receivingCall && !callActive then "Call declined" else "Call ended"

/-- `leaveCall` (lines 1959-2004), which runs in a fresh `onClick` closure
so `receivingCall`, `callActive` and `localStream` are the live values:
notify the resolved target (if any) via `/api/calls/end`, then run
`endCallCleanup` with a terminal status message. -/
def leaveCall (callTarget selectedUserId caller : Option Nat)
    (receivingCall callActive localStream : Bool) : List CleanupOp :=
  (match leaveCallTarget callTarget selectedUserId caller with
   | some t => [CleanupOp.notifyRemote t]
   | none => []) ++
    endCallCleanup localStream (leaveCallStatus receivingCall callActive)

/-! ## Client: connection-health monitoring (App.jsx lines 1666-1735) -/

/-- `RTCPeerConnection.connectionState` / `iceConnectionState` values the
handlers branch on. -/
inductive ConnState
  | connected
  | connecting
  | disconnected
  | failed
  | closed
  | checking
deriving DecidableEq, Repr

/-- `peer.onconnectionstatechange` (caller side, lines 1666-1700): `flag`
is the live `callEndedIntentionallyRef.current`; `snap` holds the
`showCallEnding`/`callActive`/`receivingCall` values captured by the
closure that created the handler (for the caller-side handler created
inside `callUser`, these are the click-render values, all `false`, so the
`disconnected`/`failed` branches and the ICE restart are dead in the
program).  A no-op once the flag is set; otherwise drives the live state
`s`'s status text; the `Bool` component records whether `restartIce()` was
invoked. -/
def onConnectionStateChange (flag : Bool) (snap : RenderSnapshot)
    (s : ClientCallState) (cs : ConnState) : ClientCallState × Bool :=
  if flag || snap.showCallEnding then (s, false)
  else
    match cs with
    | .connected =>
      if !flag && !snap.showCallEnding then
        ({ s with callStatus := "Call in progress" }, false)
      else (s, false)
    | .disconnected =>
      if (snap.callActive || snap.receivingCall) && !flag && !snap.showCallEnding then
        ({ s with callStatus := "Connection lost..." }, false)
      else (s, false)
    | .failed =>
      if (snap.callActive || snap.receivingCall) && !flag && !snap.showCallEnding then
        ({ s with callStatus := "Connection failed - trying to reconnect..." }, true)
      else (s, false)
    | _ => (s, false)

/-- `peer.oniceconnectionstatechange` (caller side, lines 1703-1735): same
guard structure and the same closure-captured reads over the ICE
connection state. -/
def onIceConnectionStateChange (flag : Bool) (snap : RenderSnapshot)
    (s : ClientCallState) (cs : ConnState) : ClientCallState × Bool :=
  if flag || snap.showCallEnding then (s, false)
  else
    match cs with
    | .failed =>
      if (snap.callActive || snap.receivingCall) && !flag && !snap.showCallEnding then
        ({ s with callStatus := "Connection failed - check network" }, true)
      else (s, false)
    | .disconnected =>
      if (snap.callActive || snap.receivingCall) && !flag && !snap.showCallEnding then
        ({ s with callStatus := "Connection lost..." }, false)
      else (s, false)
    | .connected =>
      if !flag && !snap.showCallEnding then
        ({ s with callStatus := "Call in progress" }, false)
      else (s, false)
    | _ => (s, false)

/-! ## Helper lemmas -/

/-- After removing every binding of `uid`, no registration for `uid` is
found. -/
theorem lookupClient_removeClient (cs : Registry) (uid : Nat) :
    lookupClient (removeClient cs uid) uid = none := by
  rw [lookupClient, removeClient]
  have h : List.find? (fun p => p.1 == uid) (cs.filter (fun p => !(p.1 == uid))) = none := by
    induction cs with
    | nil => rfl
    | cons p t ih =>
      by_cases hp : p.1 = uid
      · simp [List.filter_cons, hp, ih]
      · simp [List.filter_cons, List.find?_cons, hp, ih]
  simp [h]

/-- Every operation of `endCallCleanup` is local cleanup. -/
theorem endCallCleanup_mem_local (ls : Bool) (msg : String) :
    ∀ op ∈ endCallCleanup ls msg, op.isLocalCleanup = true := by
  have h : (endCallCleanup ls msg).all CleanupOp.isLocalCleanup = true := by
    cases ls <;> by_cases h : msg = "" <;>
      simp [endCallCleanup, h, CleanupOp.isLocalCleanup]
  intro op hop
  exact List.all_eq_true.mp h op hop

/-- `endCallCleanup` never contains a remote notification. -/
theorem endCallCleanup_all_local (ls : Bool) (msg : String) :
    (endCallCleanup ls msg).filter CleanupOp.isLocalCleanup = endCallCleanup ls msg :=
  List.filter_eq_self.mpr (endCallCleanup_mem_local ls msg)

/-- Every entry left in the queue by a drain is read and within the
read-retention window. -/
theorem drain_queue_read (q : SignalQueue) (now : Nat) :
    ∀ x ∈ (getCallSignals q now).2,
      x.read = true ∧ now - (x.readAt.getD x.timestamp) < READ_CLEAR_AGE := by
  intro x hx
  simp only [getCallSignals, List.mem_filter, List.mem_map] at hx
  obtain ⟨⟨y, hy, hxy⟩, hkeep⟩ := hx
  have hread : x.read = true := by
    cases hyr : y.read with
    | true =>
      have hm : markRead now y = y := by
        unfold markRead
        simp [hyr]
      have hx_eq : x = y := by rw [← hxy, hm]
      rw [hx_eq]
      exact hyr
    | false =>
      by_cases hage : now - y.timestamp < MAX_AGE_FOR_READ
      · have hm : markRead now y = { y with read := true, readAt := some now } := by
          unfold markRead
          simp [hyr, hage]
        have hx_eq : x = { y with read := true, readAt := some now } := by
          rw [← hxy, hm]
        rw [hx_eq]
      · have hm : markRead now y = y := by
          unfold markRead
          simp [hyr, hage]
        have hx_eq : x = y := by rw [← hxy, hm]
        exfalso
        rw [hx_eq] at hkeep
        simp only [keepAfterDrain, hyr] at hkeep
        simp only [Bool.false_eq_true, if_false, decide_eq_true_eq] at hkeep
        exact hage (by simpa [CLEAR_AGE, MAX_AGE_FOR_READ] using hkeep)
  refine ⟨hread, ?_⟩
  simp only [keepAfterDrain, hread, if_true, decide_eq_true_eq] at hkeep
  simpa using hkeep

/-- An option whose `strFalsy` test fails is not `none`
(`strFalsy none = true`). -/
theorem ne_none_of_not_strFalsy {o : Option String} (h : ¬strFalsy o = true) :
    ¬o = none := by
  intro hn
  subst hn
  exact h rfl

/-! ## Claim theorems -/

/-- C9: a push delivery to a user with a live registration whose sink write
fails removes the registration (every stored key form) and returns `false`;
with no live registration, `sendEvent` returns `false` without modifying
the registry. -/
theorem sendEvent_error_handling (cs : Registry) (writeOk : Nat → Bool) (uid sink : Nat) :
    (lookupClient cs uid = some sink → writeOk sink = false →
      (sendEvent cs writeOk uid).1 = false ∧
      lookupClient (sendEvent cs writeOk uid).2 uid = none) ∧
    (lookupClient cs uid = none →
      (sendEvent cs writeOk uid).1 = false ∧ (sendEvent cs writeOk uid).2 = cs) := by
  constructor
  · intro hfound hbad
    simp only [sendEvent, hfound, hbad]
    exact ⟨rfl, lookupClient_removeClient cs uid⟩
  · intro hnone
    simp [sendEvent, hnone]

/-- C9 witness: with the single registration `(1, 10)` and a failing sink,
delivery to user 1 returns `false` and unregisters; delivery to the
unregistered user 2 returns `false` and leaves the registry unchanged. -/
theorem sendEvent_error_handling_witness :
    ((sendEvent [(1, 10)] (fun _ => false) 1).1 = false ∧
      lookupClient (sendEvent [(1, 10)] (fun _ => false) 1).2 1 = none) ∧
    ((sendEvent [(1, 10)] (fun _ => false) 2).1 = false ∧
      (sendEvent [(1, 10)] (fun _ => false) 2).2 = [(1, 10)]) :=
  ⟨(sendEvent_error_handling [(1, 10)] (fun _ => false) 1 10).1 rfl rfl,
   (sendEvent_error_handling [(1, 10)] (fun _ => false) 2 0).2 rfl⟩

/-- C4 counterexample: the first reconnection delay after a `closed`-state
push error is 2000 ms, not the claimed 1000 ms (the attempt counter is
incremented before the delay is computed). -/
theorem sseBackoff_first_delay_not_1s :
    (sseOnError SSEReadyState.closed 0).map Prod.snd = some 2000 ∧
    (2000 : Nat) ≠ 1000 := by
  constructor
  · rfl
  · decide

/-- C4 amended: on a push error with `closed` readystate the client
reconnects with exponential backoff whose successive delays are 2 s, 4 s,
8 s, 16 s, 30 s (doubling from 2 s, capped at 30 s), abandoning after 5
attempts; errors in other readystates schedule no reconnect. -/
theorem sseBackoff_schedule (rs : SSEReadyState) (a : Nat) :
    reconnectDelays = [2000, 4000, 8000, 16000, 30000] ∧
    (maxReconnectAttempts ≤ a → sseOnError SSEReadyState.closed a = none) ∧
    (rs ≠ SSEReadyState.closed → sseOnError rs a = none) ∧
    (a < maxReconnectAttempts →
      sseOnError SSEReadyState.closed a = some (a + 1, min (1000 * 2 ^ (a + 1)) 30000)) := by
  refine ⟨by decide, ?_, ?_, ?_⟩
  · intro h
    simp [sseOnError, Nat.not_lt.mpr h]
  · intro h
    simp [sseOnError, h]
  · intro h
    simp [sseOnError, h, reconnectDelay]

/-- C4 witness: a sixth error schedules nothing, a non-closed error
schedules nothing, and the first closed error schedules attempt 1 after
2 s. -/
theorem sseBackoff_schedule_witness :
    sseOnError SSEReadyState.closed 5 = none ∧
    sseOnError SSEReadyState.opened 0 = none ∧
    sseOnError SSEReadyState.closed 0 = some (0 + 1, min (1000 * 2 ^ (0 + 1)) 30000) :=
  ⟨(sseBackoff_schedule SSEReadyState.opened 5).2.1 (by decide),
   (sseBackoff_schedule SSEReadyState.opened 0).2.2.1 (by decide),
   (sseBackoff_schedule SSEReadyState.closed 0).2.2.2 (by decide)⟩

/-- C5: the call-signal polling interval is 500 ms whenever a call is
active or a ring is pending and 2000 ms otherwise, and the interval choice
is re-evaluated every `intervalRecheckMs` = 1000 ms, i.e. at least once per
second. -/
theorem pollInterval_adaptive (a r : Bool) :
    ((a || r) = true → updatePollInterval a r = 500) ∧
    ((a || r) = false → updatePollInterval a r = 2000) ∧
    intervalRecheckMs ≤ 1000 := by
  refine ⟨?_, ?_, by decide⟩ <;> intro h <;> simp [updatePollInterval, h]

/-- C5 witness: concrete evaluations of the adaptive interval. -/
theorem pollInterval_adaptive_witness :
    updatePollInterval true false = 500 ∧ updatePollInterval false false = 2000 :=
  ⟨(pollInterval_adaptive true false).1 rfl,
   (pollInterval_adaptive false false).2.1 rfl⟩

/-- C6: the `call_user` ignore guards are dead code.  The SSE and polling
handlers close over the mount-render values of
`callActive`/`receivingCall`/`caller` (`false`/`false`/`null`), so
`hasActiveConnection` and `isActuallyReceiving` are always `false` in the
program: an offer received during an active call with a live connection is
processed — entering ringing state and overwriting the recorded caller,
stored offer and `callTargetRef` — and a second concurrent offer
overwrites the first instead of being ignored.  The guard text applied to
the live values (last two conjuncts) would have ignored both, which is the
behaviour the claim and the code's own log messages ("Ignoring - active
call in progress") describe. -/
theorem callUser_guards_dead :
    (runCallUser ⟨true, false, none, none, "Call in progress", some 3, true, false, false⟩
        7 "B" 5
      = ⟨true, true, some 7, some 5, "B is calling...", some 7, true, false, false⟩) ∧
    (runCallUser ⟨false, true, some 3, some 9, "A is calling...", some 3, false, false, false⟩
        7 "B" 5
      = ⟨false, true, some 7, some 5, "B is calling...", some 7, false, false, false⟩) ∧
    (handleCallUser ⟨true, false, none, false, false⟩
        ⟨true, false, none, none, "Call in progress", some 3, true, false, false⟩ 7 "B" 5
      = ⟨true, false, none, none, "Call in progress", some 3, true, false, false⟩) ∧
    (handleCallUser ⟨false, true, some 3, false, false⟩
        ⟨false, true, some 3, some 9, "A is calling...", some 3, false, false, false⟩ 7 "B" 5
      = ⟨false, true, some 3, some 9, "A is calling...", some 3, false, false, false⟩) := by
  refine ⟨?_, ?_, ?_, ?_⟩ <;> decide

/-- C10: `leaveCall` (running in a fresh `onClick` closure, so it reads
live values) resolves the `end_call` target by falling back through the
cached call target, then the selected contact, then the recorded caller;
when all three are absent no remote notification is issued, and the local
cleanup (flag, handler detach, stopping the held media tracks, closing the
connection, scheduled reset to idle) is performed in every case. -/
theorem leaveCall_target_fallback (ct su ca : Option Nat) (r a ls : Bool) (t : Nat) :
    (ct = some t → leaveCallTarget ct su ca = some t) ∧
    (ct = none → su = some t → leaveCallTarget ct su ca = some t) ∧
    (ct = none → su = none → leaveCallTarget ct su ca = ca) ∧
    (ct = none → su = none → ca = none →
      (leaveCall ct su ca r a ls).filter (fun op => !op.isLocalCleanup) = []) ∧
    ((leaveCall ct su ca r a ls).filter CleanupOp.isLocalCleanup
      = endCallCleanup ls (leaveCallStatus r a)) ∧
    CleanupOp.stopLocalTracks ∈ leaveCall ct su ca r a true ∧
    CleanupOp.scheduleResetToIdle 3000 ∈ leaveCall ct su ca r a ls := by
  have hmsg : leaveCallStatus r a ≠ "" := by
    unfold leaveCallStatus
    by_cases h : (r && !a) = true <;> simp [h]
  refine ⟨?_, ?_, ?_, ?_, ?_, ?_, ?_⟩
  · intro h; simp [leaveCallTarget, h, Option.orElse]
  · intro h1 h2; simp [leaveCallTarget, h1, h2, Option.orElse]
  · intro h1 h2; simp [leaveCallTarget, h1, h2, Option.orElse]
  · intro h1 h2 h3
    have hnone : leaveCallTarget ct su ca = none := by
      simp [leaveCallTarget, h1, h2, h3, Option.orElse]
    rw [leaveCall, hnone]
    simp only [List.nil_append, List.filter_eq_nil_iff]
    intro op hop
    simp [endCallCleanup_mem_local _ _ op hop]
  · cases hres : leaveCallTarget ct su ca with
    | none =>
      simpa [leaveCall, hres] using endCallCleanup_all_local ls (leaveCallStatus r a)
    | some x =>
      simpa [leaveCall, hres, List.filter_append, CleanupOp.isLocalCleanup]
        using endCallCleanup_all_local ls (leaveCallStatus r a)
  · cases hres : leaveCallTarget ct su ca <;>
      simp [leaveCall, hres, endCallCleanup, hmsg]
  · cases hres : leaveCallTarget ct su ca <;> cases ls <;>
      simp [leaveCall, hres, endCallCleanup, hmsg]

/-- C10 witness: with no cached target, no selected contact and no recorded
caller, no remote notification is issued and the full local cleanup still
runs (with the live stream's tracks stopped). -/
theorem leaveCall_target_fallback_witness :
    (leaveCallTarget (some 8) none none = some 8) ∧
    (leaveCallTarget none (some 9) none = some 9) ∧
    (leaveCallTarget none none (some 4) = some 4) ∧
    ((leaveCall none none none false true true).filter (fun op => !op.isLocalCleanup) = []) ∧
    CleanupOp.stopLocalTracks ∈ leaveCall none none none false true true ∧
    CleanupOp.scheduleResetToIdle 3000 ∈ leaveCall none none none false true true :=
  ⟨(leaveCall_target_fallback (some 8) none none false true true 8).1 rfl,
   (leaveCall_target_fallback none (some 9) none false true true 9).2.1 rfl rfl,
   (leaveCall_target_fallback none none (some 4) false true true 4).2.2.1 rfl rfl,
   (leaveCall_target_fallback none none none false true true 0).2.2.2.1 rfl rfl rfl,
   (leaveCall_target_fallback none none none false true true 0).2.2.2.2.2.1,
   (leaveCall_target_fallback none none none false true true 0).2.2.2.2.2.2⟩

/-- C7: receipt of `end_call` never stops the local media tracks.  The SSE
and polling handlers invoke the mount-render `endCallCleanup`, whose
captured `localStream` is `null`, so the `if (localStream)` stop block is
skipped and the camera/microphone tracks stay open after remote
termination (closing the peer connection does not stop `getUserMedia`
tracks).  The rest of the claimed behaviour is real: the flag — a live
ref — is set before any other cleanup operation on every trigger and in
`endCallCleanup` itself; a flagged connection/ICE state-change callback
changes nothing and never restarts ICE; the receipt trace still detaches
the handlers, closes the connection and schedules the reset after the 3 s
grace period; and a locally triggered cleanup whose closure holds the live
stream does stop the tracks. -/
theorem endCall_receipt_leaks_media (snap : RenderSnapshot) (s : ClientCallState)
    (cs : ConnState) (ls : Bool) (msg : String) :
    CleanupOp.stopLocalTracks ∉ handleEndCall ∧
    CleanupOp.stopLocalTracks ∈ endCallCleanup true "Call ended" ∧
    handleEndCall.head? = some CleanupOp.setEndedFlag ∧
    ((endCallCleanup ls msg).head? = some CleanupOp.setEndedFlag) ∧
    (onConnectionStateChange true snap s cs = (s, false)) ∧
    (onIceConnectionStateChange true snap s cs = (s, false)) ∧
    (CleanupOp.detachHandlers ∈ handleEndCall ∧
      CleanupOp.closeConnection ∈ handleEndCall ∧
      CleanupOp.scheduleResetToIdle 3000 ∈ handleEndCall) := by
  refine ⟨by decide, by decide, by decide, rfl, ?_, ?_, by decide⟩
  · simp [onConnectionStateChange]
  · simp [onIceConnectionStateChange]

/-- C2: a poll returns an entry only while it is unread and younger than
`SIGNAL_TTL` = 60 s, and every read entry still present after a drain is
within `READ_CLEAR_AGE` = 10 s of its `readAt` timestamp (a read entry
outside that window is discarded by the drain's sweep and never returned). -/
theorem queue_visibility_windows (q : SignalQueue) (now : Nat) (e : SignalEntry) :
    (e ∈ (getCallSignals q now).1 → e.read = false ∧ now - e.timestamp < SIGNAL_TTL) ∧
    (e ∈ (getCallSignals q now).2 → e.read = true →
      now - (e.readAt.getD e.timestamp) < READ_CLEAR_AGE) := by
  constructor
  · intro h
    simp only [getCallSignals, List.mem_filter, decide_eq_true_eq,
      Bool.not_eq_true'] at h
    exact ⟨h.2, h.1.2⟩
  · intro h _
    exact (drain_queue_read q now e h).2

/-- C2 witness: an unread entry enqueued at time 0 and polled at time 5 is
returned (unread, within TTL), and its marked copy left in the queue is
within the read-retention window. -/
theorem queue_visibility_windows_witness :
    ((⟨.call_user, .answer 0, 0, false, none⟩ : SignalEntry).read = false ∧
      5 - (⟨.call_user, .answer 0, 0, false, none⟩ : SignalEntry).timestamp < SIGNAL_TTL) ∧
    (5 - ((⟨.call_user, .answer 0, 0, true, some 5⟩ : SignalEntry).readAt.getD
        (⟨.call_user, .answer 0, 0, true, some 5⟩ : SignalEntry).timestamp) < READ_CLEAR_AGE) :=
  ⟨(queue_visibility_windows [⟨.call_user, .answer 0, 0, false, none⟩] 5
      ⟨.call_user, .answer 0, 0, false, none⟩).1 (by decide),
   (queue_visibility_windows [⟨.call_user, .answer 0, 0, false, none⟩] 5
      ⟨.call_user, .answer 0, 0, true, some 5⟩).2 (by decide) rfl⟩

/-- C3 counterexample: an unread entry enqueued at time 0 and drained at
time 30000 (30 s old) is returned by the drain, yet the queue afterwards is
empty — the returned entry is purged unread instead of being marked read
with the current timestamp. -/
theorem drain_returns_old_entry_unmarked :
    (getCallSignals [⟨.call_user, .answer 0, 0, false, none⟩] 30000).1
      = [⟨.call_user, .answer 0, 0, false, none⟩] ∧
    (getCallSignals [⟨.call_user, .answer 0, 0, false, none⟩] 30000).2 = [] := by
  decide

/-- C3 amended: a drain returns exactly the unread entries younger than
60 s; returned entries younger than 30 s are marked read with the current
timestamp and kept, while returned entries aged 30 s or more are purged
instead of marked; after any drain every remaining entry is read and within
10 s of its `readAt`, so a second drain of the resulting queue returns
nothing (each entry is returned as newly-unread exactly once), and entries
past the read-retention window are absent; the poll endpoint drains only
the requesting user's queue and leaves every other user's queue
unchanged. -/
theorem drain_semantics (q : SignalQueue) (now now2 : Nat) (e : SignalEntry)
    (st : ServerState) (uid v : Nat) :
    ((getCallSignals q now).1
      = q.filter (fun s => !s.read && decide (now - s.timestamp < SIGNAL_TTL))) ∧
    (e ∈ q → e.read = false → now - e.timestamp < MAX_AGE_FOR_READ →
      { e with read := true, readAt := some now } ∈ (getCallSignals q now).2) ∧
    (e ∈ (getCallSignals q now).1 → MAX_AGE_FOR_READ ≤ now - e.timestamp →
      e ∉ (getCallSignals q now).2) ∧
    (∀ x ∈ (getCallSignals q now).2,
      x.read = true ∧ now - (x.readAt.getD x.timestamp) < READ_CLEAR_AGE) ∧
    ((getCallSignals (getCallSignals q now).2 now2).1 = []) ∧
    ((serverPoll st uid now).1 = (getCallSignals (st.callSignals uid) now).1 ∧
      (serverPoll st uid now).2.callSignals uid = (getCallSignals (st.callSignals uid) now).2 ∧
      (v ≠ uid → (serverPoll st uid now).2.callSignals v = st.callSignals v)) := by
  refine ⟨?_, ?_, ?_, drain_queue_read q now, ?_, rfl, ?_, ?_⟩
  · simp [getCallSignals, List.filter_filter]
  · intro he her hage
    have hTTL : now - e.timestamp < SIGNAL_TTL := lt_of_lt_of_le hage (by decide)
    have h1 : e ∈ q.filter (fun s => decide (now - s.timestamp < SIGNAL_TTL)) :=
      List.mem_filter.mpr ⟨he, by simpa using hTTL⟩
    have h2 : markRead now e = { e with read := true, readAt := some now } := by
      unfold markRead
      simp [her, hage]
    have h3 := List.mem_map_of_mem (markRead now) h1
    rw [h2] at h3
    exact List.mem_filter.mpr ⟨h3, by simp [keepAfterDrain, READ_CLEAR_AGE, Nat.sub_self]⟩
  · intro hret _ hmem
    have h4 := (drain_queue_read q now e hmem).1
    have her : e.read = false := by
      simp only [getCallSignals, List.mem_filter, Bool.not_eq_true'] at hret
      exact hret.2
    rw [her] at h4
    exact absurd h4 (by simp)
  · have hrw : (getCallSignals (getCallSignals q now).2 now2).1
        = ((getCallSignals q now).2.filter
            (fun s => now2 - s.timestamp < SIGNAL_TTL)).filter (fun s => !s.read) := rfl
    rw [hrw, List.filter_eq_nil_iff]
    intro x hx
    have hx' := (drain_queue_read q now x (List.mem_filter.mp hx).1).1
    simp [hx']
  · simp [serverPoll, updQ]
  · intro hv
    simp [serverPoll, updQ, hv]

/-- C3 amended witness: a young unread entry (age 5 ms) is returned and its
marked copy kept; the 30 s-old returned entry from the counterexample state
is not in the post-drain queue; a second drain of a drained queue is
empty; and a poll by user 1 leaves user 2's queue unchanged. -/
theorem drain_semantics_witness :
    ((⟨.call_user, .answer 0, 0, true, some 5⟩ : SignalEntry)
        ∈ (getCallSignals [⟨.call_user, .answer 0, 0, false, none⟩] 5).2) ∧
    ((⟨.call_user, .answer 0, 0, false, none⟩ : SignalEntry)
        ∉ (getCallSignals [⟨.call_user, .answer 0, 0, false, none⟩] 30000).2) ∧
    ((getCallSignals (getCallSignals [⟨.call_user, .answer 0, 0, false, none⟩] 5).2 6).1 = []) ∧
    ((serverPoll ⟨[], fun _ => []⟩ 1 5).2.callSignals 2 = []) :=
  ⟨(drain_semantics [⟨.call_user, .answer 0, 0, false, none⟩] 5 6
      ⟨.call_user, .answer 0, 0, false, none⟩ ⟨[], fun _ => []⟩ 1 2).2.1
        (by decide) rfl (by decide),
   (drain_semantics [⟨.call_user, .answer 0, 0, false, none⟩] 30000 0
      ⟨.call_user, .answer 0, 0, false, none⟩ ⟨[], fun _ => []⟩ 1 2).2.2.1
        (by decide) (by decide),
   (drain_semantics [⟨.call_user, .answer 0, 0, false, none⟩] 5 6
      ⟨.call_user, .answer 0, 0, false, none⟩ ⟨[], fun _ => []⟩ 1 2).2.2.2.2.1,
   (drain_semantics [⟨.call_user, .answer 0, 0, false, none⟩] 5 6
      ⟨.call_user, .answer 0, 0, false, none⟩ ⟨[], fun _ => []⟩ 1 2).2.2.2.2.2.2.2
        (by decide)⟩

/-- C1 counterexample: a `receive_message` event dispatched through
`/api/message` to user 2, who has no live push registration (empty
registry), is not enqueued into user 2's signal queue — the queue stays
empty and a poll within the retention window returns nothing, and the push
attempt itself returned `false`, so the event is lost to that user. -/
theorem message_event_not_enqueued :
    ((apiMessageDispatch ⟨[], fun _ => []⟩ (fun _ => true) 2 1).callSignals 2 = []) ∧
    ((getCallSignals
        ((apiMessageDispatch ⟨[], fun _ => []⟩ (fun _ => true) 2 1).callSignals 2) 1000).1
      = []) ∧
    ((sendEvent [] (fun _ => true) 2).1 = false) :=
  ⟨rfl, rfl, rfl⟩

/-- C1 amended: only the call-signaling endpoints mirror their events into
the target's signal queue — `/api/calls/initiate`, `/api/calls/answer` and
`/api/calls/end` enqueue `call_user`, `call_accepted` and `end_call` for
the target regardless of the push-delivery outcome (`writeOk` and the
registry are arbitrary), and such an event is retrievable by polling within
the retention window; events dispatched only through `sendEvent`
(`receive_message` via `/api/message`, and the friend/group events) never
touch any signal queue. -/
theorem call_signal_mirroring (st : ServerState) (writeOk : Nat → Bool)
    (now callerId targetId senderId recipientId sdp t u : Nat)
    (isVideo : Bool) (name : String) :
    ((apiCallsInitiate st writeOk now callerId targetId sdp isVideo name).callSignals targetId
      = addCallSignal (st.callSignals targetId) .call_user
          (.callOffer callerId sdp isVideo name) now) ∧
    ((apiCallsAnswer st writeOk now targetId sdp).callSignals targetId
      = addCallSignal (st.callSignals targetId) .call_accepted (.answer sdp) now) ∧
    ((apiCallsEnd st writeOk now senderId (some targetId)).callSignals targetId
      = addCallSignal (st.callSignals targetId) .end_call (.endFrom senderId) now) ∧
    ((apiMessageDispatch st writeOk recipientId senderId).callSignals u
      = st.callSignals u) ∧
    ((pushOnlyDispatch st writeOk targetId).callSignals u = st.callSignals u) ∧
    (now - t < SIGNAL_TTL →
      (getCallSignals (addCallSignal [] .call_user (.callOffer callerId sdp isVideo name) t)
          now).1
        = [⟨.call_user, .callOffer callerId sdp isVideo name, t, false, none⟩]) := by
  refine ⟨?_, ?_, ?_, rfl, rfl, ?_⟩
  · simp [apiCallsInitiate, serverEnqueue, updQ]
  · simp [apiCallsAnswer, serverEnqueue, updQ]
  · simp [apiCallsEnd, serverEnqueue, updQ]
  · intro h
    simp [addCallSignal, getCallSignals, h]

/-- C1 amended witness: a `call_user` signal enqueued at time 0 into an
empty queue is returned by a poll at time 5. -/
theorem call_signal_mirroring_witness :
    (getCallSignals (addCallSignal [] .call_user (.callOffer 1 2 false "A") 0) 5).1
      = [⟨.call_user, .callOffer 1 2 false "A", 0, false, none⟩] :=
  (call_signal_mirroring ⟨[], fun _ => []⟩ (fun _ => true) 5 1 2 1 2 2 0 0
    false "A").2.2.2.2.2 (by decide)

/-- C8: a received `ice_candidate` is applied to the peer connection unless
it is `null`/absent (skipped as end-of-gathering) or lacks the candidate
string, the `sdpMid` and the `sdpMLineIndex` all at once (dropped silently,
the handler being total); and the server relay forwards a candidate to the
target's queue exactly when at least one of those fields is present,
leaving the state untouched otherwise. -/
theorem ice_candidate_validation (hc : Bool) (c : IceCandidate) (st : ServerState)
    (writeOk : Nat → Bool) (now targetId : Nat) (cand : JsOpt IceCandidate) :
    (clientHandleIceCandidate true (.val c) = .applied ↔
      ¬(c.candidate = "" ∧ strFalsy c.sdpMid = true ∧ c.sdpMLineIndex = JsOpt.undef)) ∧
    (clientHandleIceCandidate true (.val c) = .droppedInvalid ↔
      (c.candidate = "" ∧ strFalsy c.sdpMid = true ∧ c.sdpMLineIndex = JsOpt.undef)) ∧
    clientHandleIceCandidate hc JsOpt.null = .skipped ∧
    clientHandleIceCandidate hc JsOpt.undef = .skipped ∧
    (serverForwardsIce (.val c) = true ↔
      (c.candidate ≠ "" ∨ strFalsy c.sdpMid = false ∨ ∃ n, c.sdpMLineIndex = JsOpt.val n)) ∧
    serverForwardsIce JsOpt.null = false ∧
    serverForwardsIce JsOpt.undef = false ∧
    (serverForwardsIce cand = false → apiCallsIceCandidate st writeOk now targetId cand = st) ∧
    (∀ c', cand = JsOpt.val c' → serverForwardsIce cand = true →
      (apiCallsIceCandidate st writeOk now targetId cand).callSignals targetId
        = addCallSignal (st.callSignals targetId) .ice_candidate
            (.ice (normalizeCandidate c')) now) := by
  refine ⟨?_, ?_, by cases hc <;> rfl, by cases hc <;> rfl, ?_, rfl, rfl, ?_, ?_⟩
  · by_cases h1 : c.candidate = "" <;> by_cases h2 : strFalsy c.sdpMid = true <;>
      by_cases h3 : c.sdpMLineIndex = JsOpt.undef <;>
      simp [clientHandleIceCandidate, h1, h2, h3]
  · by_cases h1 : c.candidate = "" <;> by_cases h2 : strFalsy c.sdpMid = true <;>
      by_cases h3 : c.sdpMLineIndex = JsOpt.undef <;>
      simp [clientHandleIceCandidate, h1, h2, h3]
  · by_cases h1 : c.candidate = "" <;> by_cases h2 : strFalsy c.sdpMid = true <;>
      cases hidx : c.sdpMLineIndex <;>
      simp [serverForwardsIce, normalizeCandidate, h1, h2, hidx]
    all_goals exact ne_none_of_not_strFalsy h2
  · intro h
    cases cand with
    | undef => rfl
    | null => rfl
    | val c' =>
      have h' : (!((normalizeCandidate c').candidate == "" &&
          (normalizeCandidate c').sdpMid == none &&
          (normalizeCandidate c').sdpMLineIndex == JsOpt.null)) = false := h
      have hcond : ((normalizeCandidate c').candidate == "" &&
          (normalizeCandidate c').sdpMid == none &&
          (normalizeCandidate c').sdpMLineIndex == JsOpt.null) = true :=
        (Bool.not_eq_false_eq_eq_true _) ▸ h'
      simp [apiCallsIceCandidate, hcond]
  · intro c' hc' hfwd
    subst hc'
    have h' : (!((normalizeCandidate c').candidate == "" &&
        (normalizeCandidate c').sdpMid == none &&
        (normalizeCandidate c').sdpMLineIndex == JsOpt.null)) = true := hfwd
    have hcond : ((normalizeCandidate c').candidate == "" &&
        (normalizeCandidate c').sdpMid == none &&
        (normalizeCandidate c').sdpMLineIndex == JsOpt.null) = false :=
      (Bool.not_eq_true_eq_eq_false _) ▸ h'
    simp [apiCallsIceCandidate, hcond, serverEnqueue, updQ]

/-- C8 witness: a well-formed candidate is applied by the client and
forwarded into the target's queue by the relay; a candidate lacking all
three fields is dropped by the client and leaves the server state
untouched. -/
theorem ice_candidate_validation_witness :
    clientHandleIceCandidate true (JsOpt.val ⟨"c0", some "0", JsOpt.val 0⟩)
      = IceHandling.applied ∧
    clientHandleIceCandidate true (JsOpt.val ⟨"", none, JsOpt.undef⟩)
      = IceHandling.droppedInvalid ∧
    (apiCallsIceCandidate ⟨[], fun _ => []⟩ (fun _ => true) 5 2
        (JsOpt.val ⟨"", none, JsOpt.undef⟩) = (⟨[], fun _ => []⟩ : ServerState)) ∧
    ((apiCallsIceCandidate ⟨[], fun _ => []⟩ (fun _ => true) 5 2
          (JsOpt.val ⟨"c0", some "0", JsOpt.val 0⟩)).callSignals 2
      = addCallSignal [] .ice_candidate
          (.ice (normalizeCandidate ⟨"c0", some "0", JsOpt.val 0⟩)) 5) :=
  ⟨(ice_candidate_validation true ⟨"c0", some "0", JsOpt.val 0⟩ ⟨[], fun _ => []⟩
      (fun _ => true) 5 2 JsOpt.null).1.mpr (by decide),
   (ice_candidate_validation true ⟨"", none, JsOpt.undef⟩ ⟨[], fun _ => []⟩
      (fun _ => true) 5 2 JsOpt.null).2.1.mpr (by decide),
   (ice_candidate_validation true ⟨"", none, JsOpt.undef⟩ ⟨[], fun _ => []⟩
      (fun _ => true) 5 2 (JsOpt.val ⟨"", none, JsOpt.undef⟩)).2.2.2.2.2.2.2.1
     (by decide),
   (ice_candidate_validation true ⟨"c0", some "0", JsOpt.val 0⟩ ⟨[], fun _ => []⟩
      (fun _ => true) 5 2 (JsOpt.val ⟨"c0", some "0", JsOpt.val 0⟩)).2.2.2.2.2.2.2.2
     ⟨"c0", some "0", JsOpt.val 0⟩ rfl (by decide)⟩

end ChatApp
